import Mathlib

/-!
# Task tracker: request handlers over a relational store

A shallow embedding of `main.go`: the `tasks` table, the connection
bookkeeping and the eight routes registered in `main`.  Every handler is a
function from the state before the request to the state after it together
with what the client observes (a response, or the death of the process when
`log.Fatalf` is reached).

The database is an external collaborator.  Its table is a list of rows in
storage order, its failures are supplied per request by an `Env`, and every
`if err != nil` branch of the source is kept and decided by that `Env`.
-/

namespace TaskApp

/-! ## Data model -/

/-- The `Task` struct of `main.go`; `ID` is a Go `int`. -/
structure Task where
  ID : Int
  Title : String
  Description : String
  DueDate : String
  Completed : Bool
deriving DecidableEq, Repr

/-- The zero value of `Task`, what `var t Task` and a named result hold. -/
def Task.zero : Task :=
  { ID := 0, Title := "", Description := "", DueDate := "", Completed := false }

/-- Everything a request can read or change: the table `tasks`, the
sequence behind its auto-assigned `id`, the number of connections this
process holds open, and the package-level variable `tasks`. -/
structure World where
  /-- Rows of the table `tasks`, in storage order. -/
  rows : List Task
  /-- Last value handed out by the sequence of the `id` column. -/
  seq : Nat
  /-- Connections opened by `pgx.Connect` and not yet closed. -/
  openConns : Nat
  /-- The package-level `var tasks []Task`. -/
  tasks : List Task
deriving DecidableEq, Repr

/-- What the database does during one request: `true` means the call
returns a nil error.  `connect` and `stmt` are the handler's own
`pgx.Connect` and its statement; the `list*` fields are the calls made
inside `queryAllTasks`. -/
structure Env where
  connect : Bool
  stmt : Bool
  listConnect : Bool
  listQuery : Bool
  listIter : Bool
deriving DecidableEq, Repr

/-- The `gin.H` or value handed to `c.IndentedJSON`. -/
inductive Payload where
  /-- A `Task`, encoded with the struct tags `id`, `title`, `description`,
  `due_date`, `completed`. -/
  | task (t : Task)
  /-- A `[]Task`. -/
  | taskList (ts : List Task)
  /-- A `gin.H` with one string entry. -/
  | obj (key value : String)
deriving DecidableEq, Repr

/-- The three ways a handler answers. -/
inductive Response where
  /-- `c.IndentedJSON(status, payload)`. -/
  | json (status : Nat) (payload : Payload)
  /-- `c.HTML(status, name, gin.H{"error": error, "tasks": tasks})`; `error`
  is `none` when the key is absent. -/
  | html (status : Nat) (name : String) (error : Option String) (tasks : List Task)
  /-- `c.Redirect(status, location)`. -/
  | redirect (status : Nat) (location : String)
deriving DecidableEq, Repr

/-- What the client of one request observes. -/
inductive Outcome where
  /-- `log.Fatalf` was reached: the process exits, no response is written. -/
  | fatal
  | response (r : Response)
deriving DecidableEq, Repr

/-- State after a handler together with its outcome. -/
structure Step where
  world : World
  out : Outcome
deriving DecidableEq, Repr

def StatusOK : Nat := 200
def StatusFound : Nat := 302
def StatusBadRequest : Nat := 400
def StatusInternalServerError : Nat := 500

/-! ## `strconv.Atoi` (Go standard library) -/

/-- Value of one decimal digit byte, `none` for any other character. -/
def digitVal (c : Char) : Option Nat :=
  if '0' ≤ c ∧ c ≤ '9' then some (c.toNat - '0'.toNat) else none

/-- Accumulate decimal digits left to right; `none` at the first
character that is not a digit. -/
def parseDigits : Nat → List Char → Option Nat
  | acc, [] => some acc
  | acc, c :: cs =>
    match digitVal c with
    | none => none
    | some d => parseDigits (acc * 10 + d) cs

/-- The function `strconv.Atoi` on a 64-bit platform: an optional sign, then
at least one decimal digit, nothing else, and a value in the range of `int`;
`none` is a non-nil error. -/
def Atoi (s : String) : Option Int :=
  let signed : Bool × List Char :=
    match s.data with
    | '-' :: cs => (true, cs)
    | '+' :: cs => (false, cs)
    | cs => (false, cs)
  match signed.2 with
  | [] => none
  | ds =>
    match parseDigits 0 ds with
    | none => none
    | some n =>
      if signed.1 then
        if n ≤ 2 ^ 63 then some (-(n : Int)) else none
      else
        if n < 2 ^ 63 then some (n : Int) else none

/-! ## The statements sent to the database -/

/-- Result set of `SELECT json_build_object(...) FROM Tasks WHERE ID >= 1`,
each row already decoded into a `Task`. -/
def selectAll (rows : List Task) : List Task :=
  rows.filter (fun t => decide (1 ≤ t.ID))

/-- Result set of `SELECT json_build_object(...) FROM Tasks WHERE id = $1`. -/
def selectByID (rows : List Task) (id : Int) : List Task :=
  rows.filter (fun t => decide (t.ID = id))

/-- Table after `DELETE FROM tasks WHERE id = $1`. -/
def deleteByID (rows : List Task) (id : Int) : List Task :=
  rows.filter (fun t => decide (t.ID ≠ id))

/-- Table after `UPDATE tasks SET completed = true WHERE id = $1`. -/
def completeByID (rows : List Task) (id : Int) : List Task :=
  rows.map (fun t => if t.ID = id then { t with Completed := true } else t)

/-- Modelled from the spec: the table definition is missing from the
sources; the spec gives `id` as an integer primary key that the database
assigns.  The id the sequence hands out after `seq`. -/
def nextID (seq : Nat) : Int := ((seq + 1 : Nat) : Int)

/-- Modelled from the spec: the table definition is missing from the
sources; the spec gives `id` as an integer primary key that the database
assigns.  `INSERT INTO tasks (title, description, due_date, completed)
VALUES ($1, $2, $3, $4) RETURNING id` draws the next value of the sequence
and appends the row; it fails, storing nothing, when `ok` is `false` or when
the drawn id is already a key of the table. -/
def insertReturningID (ok : Bool) (w : World)
    (title description dueDate : String) (completed : Bool) : World × Option Int :=
  if ok then
    if w.rows.any (fun t => decide (t.ID = nextID w.seq)) then
      ({ w with seq := w.seq + 1 }, none)
    else
      ({ w with
          seq := w.seq + 1
          rows := w.rows ++ [{ ID := nextID w.seq, Title := title, Description := description,
                               DueDate := dueDate, Completed := completed }] },
       some (nextID w.seq))
  else
    (w, none)

/-! ## Data access and handlers -/

/-- The function `initDatabaseConnection`: `none` is `log.Fatalf`. -/
def initDatabaseConnection (ok : Bool) (w : World) : Option World :=
  if ok then some { w with openConns := w.openConns + 1 } else none

/-- The call `conn.Close(context.Background())`. -/
def connClose (w : World) : World :=
  { w with openConns := w.openConns - 1 }

/-- The function `queryAllTasks`; `none` is `log.Fatalf`.  `records.Scan`
into `[]byte` and `json.Unmarshal` into `Task` do not fail on the object
built from the five typed columns, so the loop appends every selected row. -/
def queryAllTasks (e : Env) (w : World) : World × Option (List Task) :=
  let w0 := { w with tasks := [] }
  match initDatabaseConnection e.listConnect w0 with
  | none => (w0, none)
  | some w1 =>
    if e.listQuery then
      let w2 := { w1 with tasks := selectAll w1.rows }
      if e.listIter then (w2, some w2.tasks) else (w2, none)
    else
      (w1, none)

/-- Handler `getTasks` (`GET /tasks`). -/
def getTasks (e : Env) (w : World) : Step :=
  match queryAllTasks e w with
  | (w1, none) => ⟨w1, .fatal⟩
  | (w1, some ts) =>
    ⟨{ w1 with tasks := ts }, .response (.json StatusOK (.taskList ts))⟩

/-- Handler `htmlTasks` (`GET /`). -/
def htmlTasks (e : Env) (w : World) : Step :=
  match queryAllTasks e w with
  | (w1, none) => ⟨w1, .fatal⟩
  | (w1, some ts) => ⟨w1, .response (.html StatusOK "index.html" none ts)⟩

/-- The function `parseJSON`: the first record decoded, or the zero `Task`
when `records.Next()` is false at once. -/
def parseJSON (records : List Task) : Task :=
  match records with
  | [] => Task.zero
  | t :: _ => t

/-- The value `conn.Query` returns for the by-id select: the result set, or
rows that yield nothing when the error is non-nil. -/
def queryByID (ok : Bool) (rows : List Task) (id : Int) : List Task :=
  if ok then selectByID rows id else []

/-- Handler `getTaskByID` (`GET /tasks/:id`); `param` is `c.Param("id")`.
A query error is only logged, and the connection is never closed. -/
def getTaskByID (e : Env) (param : String) (w : World) : Step :=
  match Atoi param with
  | none => ⟨w, .fatal⟩
  | some id =>
    match initDatabaseConnection e.connect w with
    | none => ⟨w, .fatal⟩
    | some w1 =>
      let result := queryByID e.stmt w1.rows id
      let t := parseJSON result
      if t.ID = 0 then
        ⟨w1, .response (.json StatusOK (.obj "message" "Task Not Found"))⟩
      else
        ⟨w1, .response (.json StatusOK (.task t))⟩

/-- Handler `deleteTaskByID` (`GET /tasks/:id/delete`).  The error of
`conn.Exec` is assigned and never read. -/
def deleteTaskByID (e : Env) (param : String) (w : World) : Step :=
  match Atoi param with
  | none => ⟨w, .fatal⟩
  | some id =>
    match initDatabaseConnection e.connect w with
    | none => ⟨w, .fatal⟩
    | some w1 =>
      let w2 := if e.stmt then { w1 with rows := deleteByID w1.rows id } else w1
      ⟨connClose w2, .response (.redirect StatusFound "/")⟩

/-- Handler `completeTaskByID` (`GET /tasks/:id/complete`).  The result of
`conn.Exec` is dropped; the `err` tested afterwards is the one of `Atoi`,
which is nil here. -/
def completeTaskByID (e : Env) (param : String) (w : World) : Step :=
  match Atoi param with
  | none => ⟨w, .fatal⟩
  | some id =>
    match initDatabaseConnection e.connect w with
    | none => ⟨w, .fatal⟩
    | some w1 =>
      let w2 := if e.stmt then { w1 with rows := completeByID w1.rows id } else w1
      ⟨connClose w2, .response (.redirect StatusFound "/")⟩

/-- Handler `createTask` (`POST /tasks`, `POST /`); the arguments are the
form fields `title`, `description`, `due_date`. -/
def createTask (e : Env) (title description dueDate : String) (w : World) : Step :=
  let newTask : Task :=
    { Task.zero with Title := title, Description := description, DueDate := dueDate }
  if newTask.Title = "" ∨ newTask.DueDate = "" then
    match queryAllTasks e w with
    | (w1, none) => ⟨w1, .fatal⟩
    | (w1, some ts) =>
      ⟨w1, .response (.html StatusBadRequest "index.html"
        (some "Title and due date are required") ts)⟩
  else
    match initDatabaseConnection e.connect w with
    | none => ⟨w, .fatal⟩
    | some w1 =>
      match insertReturningID e.stmt w1 newTask.Title newTask.Description
          newTask.DueDate false with
      | (w2, none) =>
        ⟨connClose w2, .response (.json StatusInternalServerError
          (.obj "error" "Failed to create task"))⟩
      | (w2, some _) =>
        ⟨connClose w2, .response (.redirect StatusFound "/")⟩

/-- Handler `searchTask` (`GET /search`); `searchID` is `c.Query("id")`. -/
def searchTask (e : Env) (searchID : String) (w : World) : Step :=
  if searchID = "" then
    ⟨w, .response (.redirect StatusFound "/")⟩
  else
    match Atoi searchID with
    | none =>
      match queryAllTasks e w with
      | (w1, none) => ⟨w1, .fatal⟩
      | (w1, some ts) =>
        ⟨w1, .response (.html StatusOK "index.html" (some "Invalid ID format") ts)⟩
    | some id =>
      match initDatabaseConnection e.connect w with
      | none => ⟨w, .fatal⟩
      | some w1 =>
        if e.stmt then
          let foundTask := parseJSON (selectByID w1.rows id)
          if foundTask.ID = 0 then
            match queryAllTasks e w1 with
            | (w2, none) => ⟨w2, .fatal⟩
            | (w2, some ts) =>
              ⟨connClose w2,
                .response (.html StatusOK "index.html" (some "Task not found") ts)⟩
          else
            ⟨connClose w1, .response (.html StatusOK "index.html" none [foundTask])⟩
        else
          match queryAllTasks e w1 with
          | (w2, none) => ⟨w2, .fatal⟩
          | (w2, some ts) =>
            ⟨connClose w2,
              .response (.html StatusOK "index.html" (some "Database error") ts)⟩

/-! ## Routing -/

/-- The routes registered in `main`. -/
inductive Request where
  /-- `GET /`. -/
  | root
  /-- `GET /tasks`. -/
  | list
  /-- `GET /tasks/:id`. -/
  | get (id : String)
  /-- `GET /tasks/:id/delete`. -/
  | delete (id : String)
  /-- `GET /tasks/:id/complete`. -/
  | complete (id : String)
  /-- `GET /search?id=`. -/
  | search (id : String)
  /-- `POST /tasks` and `POST /` with the three form fields. -/
  | create (title description dueDate : String)
deriving DecidableEq, Repr

/-- Dispatch of one request to its handler. -/
def handle (e : Env) (r : Request) (w : World) : Step :=
  match r with
  | .root => htmlTasks e w
  | .list => getTasks e w
  | .get id => getTaskByID e id w
  | .delete id => deleteTaskByID e id w
  | .complete id => completeTaskByID e id w
  | .search id => searchTask e id w
  | .create title description dueDate => createTask e title description dueDate w

/-- Serve requests one after another; the process stops serving at the
first request that reaches `log.Fatalf`. -/
def run (w : World) : List (Env × Request) → World
  | [] => w
  | (e, r) :: rest =>
    match (handle e r w).out with
    | .fatal => (handle e r w).world
    | .response _ => run (handle e r w).world rest

/-- Environment of a request during which the database answers every call. -/
def Env.up : Env :=
  { connect := true, stmt := true, listConnect := true, listQuery := true, listIter := true }

/-- Primary key of the table: no two rows share an `id`. -/
def PrimaryKey (rows : List Task) : Prop :=
  (rows.map (fun t => t.ID)).Nodup

instance (rows : List Task) : Decidable (PrimaryKey rows) := by
  unfold PrimaryKey; infer_instance

/-- Every stored task has a title and a due date. -/
def Validated (rows : List Task) : Prop :=
  ∀ t ∈ rows, t.Title ≠ "" ∧ t.DueDate ≠ ""

/-! ## Facts about the statements -/

theorem Atoi_empty : Atoi "" = none := rfl

theorem Atoi_ne_empty {s : String} {id : Int} (h : Atoi s = some id) : s ≠ "" := by
  intro hs
  rw [hs, Atoi_empty] at h
  cases h

theorem selectByID_absent {rows : List Task} {id : Int}
    (h : ∀ t ∈ rows, t.ID ≠ id) : selectByID rows id = [] := by
  unfold selectByID
  rw [List.filter_eq_nil_iff]
  intro t ht
  simpa using h t ht

theorem selectByID_of_mem {rows : List Task} {t : Task}
    (hpk : PrimaryKey rows) (ht : t ∈ rows) : selectByID rows t.ID = [t] := by
  induction rows with
  | nil => cases ht
  | cons a rest ih =>
    unfold PrimaryKey at hpk
    rw [List.map_cons, List.nodup_cons] at hpk
    obtain ⟨hnot, hnd⟩ := hpk
    rcases List.mem_cons.mp ht with rfl | hmem
    · have habs : ∀ u ∈ rest, u.ID ≠ t.ID := by
        intro u hu heq
        exact hnot (heq ▸ List.mem_map_of_mem (fun t => t.ID) hu)
      have := selectByID_absent habs
      unfold selectByID at this ⊢
      simp [List.filter_cons, this]
    · have hne : a.ID ≠ t.ID := by
        intro heq
        exact hnot (heq ▸ List.mem_map_of_mem (fun t => t.ID) hmem)
      have := ih hnd hmem
      unfold selectByID at this ⊢
      simp [List.filter_cons, hne, this]

theorem selectByID_deleteByID (rows : List Task) (id : Int) :
    selectByID (deleteByID rows id) id = [] := by
  apply selectByID_absent
  intro t ht
  unfold deleteByID at ht
  simpa using (List.mem_filter.mp ht).2

theorem deleteByID_absent {rows : List Task} {id : Int}
    (h : ∀ t ∈ rows, t.ID ≠ id) : deleteByID rows id = rows := by
  unfold deleteByID
  rw [List.filter_eq_self]
  intro t ht
  simpa using h t ht

theorem completeByID_ids (rows : List Task) (id : Int) :
    (completeByID rows id).map (fun t => t.ID) = rows.map (fun t => t.ID) := by
  unfold completeByID
  rw [List.map_map]
  apply List.map_congr_left
  intro t _
  by_cases h : t.ID = id <;> simp [h]

theorem completeByID_idem (rows : List Task) (id : Int) :
    completeByID (completeByID rows id) id = completeByID rows id := by
  unfold completeByID
  rw [List.map_map]
  apply List.map_congr_left
  intro t _
  by_cases h : t.ID = id <;> simp [h]

theorem completeByID_pk {rows : List Task} (id : Int) (hpk : PrimaryKey rows) :
    PrimaryKey (completeByID rows id) := by
  unfold PrimaryKey at hpk ⊢
  rw [completeByID_ids]
  exact hpk

theorem mem_completeByID {rows : List Task} (id : Int) {t : Task} (ht : t ∈ rows) :
    (if t.ID = id then { t with Completed := true } else t) ∈ completeByID rows id := by
  unfold completeByID
  exact List.mem_map_of_mem _ ht

/-! ## Create -/

/-- A create request with an empty `title` or `due_date` leaves the table
as it was, whatever the database does. -/
theorem createTask_empty_rows (e : Env) (title description dueDate : String) (w : World)
    (hempty : title = "" ∨ dueDate = "") :
    (createTask e title description dueDate w).world.rows = w.rows := by
  unfold createTask queryAllTasks initDatabaseConnection
  simp only [hempty, if_true]
  cases e.listConnect <;> cases e.listQuery <;> cases e.listIter <;> simp

/-- C1: a create request whose `title` or `due_date` is empty never changes
the table, and while the database answers the listing it is answered with
status 400 and the page `index.html` carrying the error
"Title and due date are required". -/
theorem createTask_rejects_empty (e : Env) (title description dueDate : String) (w : World)
    (hempty : title = "" ∨ dueDate = "") :
    (createTask e title description dueDate w).world.rows = w.rows ∧
    (e.listConnect = true → e.listQuery = true → e.listIter = true →
      (createTask e title description dueDate w).out =
        .response (.html 400 "index.html" (some "Title and due date are required")
          (selectAll w.rows))) := by
  constructor
  · exact createTask_empty_rows e title description dueDate w hempty
  · intro hc hq hi
    unfold createTask queryAllTasks initDatabaseConnection
    simp [hempty, hc, hq, hi, StatusBadRequest]

theorem createTask_rejects_empty_witness :
    (createTask Env.up "" "milk" "2025-01-01" ⟨[⟨1, "a", "b", "c", true⟩], 1, 0, []⟩).world.rows
        = [⟨1, "a", "b", "c", true⟩] ∧
    (createTask Env.up "" "milk" "2025-01-01" ⟨[⟨1, "a", "b", "c", true⟩], 1, 0, []⟩).out =
        .response (.html 400 "index.html" (some "Title and due date are required")
          (selectAll [⟨1, "a", "b", "c", true⟩])) :=
  ⟨(createTask_rejects_empty Env.up "" "milk" "2025-01-01"
      ⟨[⟨1, "a", "b", "c", true⟩], 1, 0, []⟩ (Or.inl rfl)).1,
   (createTask_rejects_empty Env.up "" "milk" "2025-01-01"
      ⟨[⟨1, "a", "b", "c", true⟩], 1, 0, []⟩ (Or.inl rfl)).2 rfl rfl rfl⟩

theorem nextID_ne_zero (seq : Nat) : nextID seq ≠ 0 := by
  unfold nextID
  exact_mod_cast Nat.succ_ne_zero seq

theorem nextID_pos (seq : Nat) : 1 ≤ nextID seq := by
  unfold nextID
  exact_mod_cast Nat.succ_le_succ (Nat.zero_le seq)

theorem insertReturningID_some {ok : Bool} {w : World} {title description dueDate : String}
    {completed : Bool} {id : Int}
    (h : (insertReturningID ok w title description dueDate completed).2 = some id) :
    ok = true ∧ id = nextID w.seq ∧ (∀ t ∈ w.rows, t.ID ≠ id) := by
  unfold insertReturningID at h
  cases ok with
  | false => simp at h
  | true =>
    by_cases hex : ∃ x ∈ w.rows, x.ID = nextID w.seq
    · simp [hex] at h
    · simp [hex] at h
      subst h
      refine ⟨rfl, rfl, ?_⟩
      intro t ht heq
      exact hex ⟨t, ht, heq⟩

theorem insertReturningID_fresh {w : World} (title description dueDate : String)
    (completed : Bool) (hfresh : ∀ t ∈ w.rows, t.ID ≠ nextID w.seq) :
    insertReturningID true w title description dueDate completed =
      ({ w with
          seq := w.seq + 1
          rows := w.rows ++ [{ ID := nextID w.seq, Title := title, Description := description,
                               DueDate := dueDate, Completed := completed }] },
       some (nextID w.seq)) := by
  have hex : ¬ ∃ x ∈ w.rows, x.ID = nextID w.seq := by
    rintro ⟨t, ht, heq⟩
    exact hfresh t ht heq
  unfold insertReturningID
  simp [hex]

/-- The step `createTask` takes when its input is valid, the database is
reachable and the insert succeeds. -/
theorem createTask_inserted {e : Env} {title description dueDate : String} {w : World}
    (ht : title ≠ "") (hd : dueDate ≠ "") (hc : e.connect = true) (hs : e.stmt = true)
    (hfresh : ∀ t ∈ w.rows, t.ID ≠ nextID w.seq) :
    createTask e title description dueDate w =
      ⟨{ w with
          seq := w.seq + 1
          rows := w.rows ++ [{ ID := nextID w.seq, Title := title, Description := description,
                               DueDate := dueDate, Completed := false }] },
       .response (.redirect 302 "/")⟩ := by
  have hex : ¬ ∃ x ∈ w.rows, x.ID = nextID w.seq := by
    rintro ⟨t, ht, heq⟩
    exact hfresh t ht heq
  unfold createTask initDatabaseConnection insertReturningID connClose
  simp [ht, hd, hc, hs, hex, Task.zero, StatusFound]

/-- The step `getTaskByID` takes on a numeric parameter while the database
is reachable. -/
theorem getTaskByID_connected {e : Env} {param : String} {w : World} {id : Int}
    (hparam : Atoi param = some id) (hc : e.connect = true) :
    getTaskByID e param w =
      ⟨{ w with openConns := w.openConns + 1 },
        if (parseJSON (queryByID e.stmt w.rows id)).ID = 0 then
          .response (.json 200 (.obj "message" "Task Not Found"))
        else
          .response (.json 200 (.task (parseJSON (queryByID e.stmt w.rows id))))⟩ := by
  unfold getTaskByID initDatabaseConnection
  simp only [hparam, hc, if_true, StatusOK]
  split_ifs <;> rfl

/-- C2: a create request with non-empty `title` and `due_date` whose
insert succeeds is answered with a 302 redirect to "/", and `GET /tasks/:id`
with the id the database assigned, served right after it, answers 200 with
the task holding the submitted title, description and due date and
`completed = false`. -/
theorem createTask_then_getTaskByID (e g : Env) (title description dueDate param : String)
    (w : World) (id : Int)
    (ht : title ≠ "") (hd : dueDate ≠ "")
    (hc : e.connect = true)
    (hins : (insertReturningID e.stmt w title description dueDate false).2 = some id)
    (hparam : Atoi param = some id)
    (gc : g.connect = true) (gq : g.stmt = true) :
    (createTask e title description dueDate w).out = .response (.redirect 302 "/") ∧
    (getTaskByID g param (createTask e title description dueDate w).world).out =
      .response (.json 200 (.task
        { ID := id, Title := title, Description := description, DueDate := dueDate,
          Completed := false })) := by
  obtain ⟨hok, hid, hfresh⟩ := insertReturningID_some hins
  subst hid
  have hsel : selectByID w.rows (nextID w.seq) = [] := selectByID_absent hfresh
  rw [createTask_inserted ht hd hc hok hfresh]
  refine ⟨rfl, ?_⟩
  rw [getTaskByID_connected hparam gc]
  unfold selectByID at hsel
  simp [queryByID, gq, selectByID, List.filter_append, hsel, parseJSON, nextID_ne_zero]

theorem createTask_then_getTaskByID_witness :
    (createTask Env.up "Buy milk" "" "2025-01-01" ⟨[⟨1, "a", "b", "c", true⟩], 1, 0, []⟩).out
        = .response (.redirect 302 "/") ∧
    (getTaskByID Env.up "2"
        (createTask Env.up "Buy milk" "" "2025-01-01"
          ⟨[⟨1, "a", "b", "c", true⟩], 1, 0, []⟩).world).out =
      .response (.json 200 (.task
        { ID := 2, Title := "Buy milk", Description := "", DueDate := "2025-01-01",
          Completed := false })) :=
  createTask_then_getTaskByID Env.up Env.up "Buy milk" "" "2025-01-01" "2"
    ⟨[⟨1, "a", "b", "c", true⟩], 1, 0, []⟩ 2 (by decide) (by decide) rfl rfl rfl rfl rfl

/-! ## Lookup by id -/

/-- The listing while the database answers it: the rows with `id >= 1`,
also stored in the package-level `tasks`, and one more open connection. -/
theorem queryAllTasks_up {e : Env} (w : World)
    (hc : e.listConnect = true) (hq : e.listQuery = true) (hi : e.listIter = true) :
    queryAllTasks e w =
      ({ w with openConns := w.openConns + 1, tasks := selectAll w.rows },
        some (selectAll w.rows)) := by
  unfold queryAllTasks initDatabaseConnection
  simp [hc, hq, hi]

/-- The listing never touches the table. -/
theorem queryAllTasks_rows (e : Env) (w : World) : (queryAllTasks e w).1.rows = w.rows := by
  unfold queryAllTasks initDatabaseConnection
  cases e.listConnect <;> cases e.listQuery <;> cases e.listIter <;> rfl

/-- C3, as amended: for every id other than 0 that is the key of a stored
row, `GET /tasks/:id` answers 200 with exactly that row and
`GET /search?id=` renders the page with that single task and no error. -/
theorem lookup_stored_nonzero (e : Env) (param : String) (w : World) (t : Task)
    (hpk : PrimaryKey w.rows) (ht : t ∈ w.rows) (hparam : Atoi param = some t.ID)
    (hz : t.ID ≠ 0) (hc : e.connect = true) (hq : e.stmt = true) :
    (getTaskByID e param w).out = .response (.json 200 (.task t)) ∧
    (searchTask e param w).out = .response (.html 200 "index.html" none [t]) := by
  have hsel := selectByID_of_mem hpk ht
  constructor
  · rw [getTaskByID_connected hparam hc]
    simp [queryByID, hq, hsel, parseJSON, hz]
  · unfold searchTask initDatabaseConnection
    simp [Atoi_ne_empty hparam, hparam, hc, hq, hsel, parseJSON, hz, StatusOK]

theorem lookup_stored_nonzero_witness :
    (getTaskByID Env.up "7" ⟨[⟨3, "a", "", "c", false⟩, ⟨7, "x", "y", "z", true⟩], 7, 0, []⟩).out
        = .response (.json 200 (.task ⟨7, "x", "y", "z", true⟩)) ∧
    (searchTask Env.up "7" ⟨[⟨3, "a", "", "c", false⟩, ⟨7, "x", "y", "z", true⟩], 7, 0, []⟩).out
        = .response (.html 200 "index.html" none [⟨7, "x", "y", "z", true⟩]) :=
  lookup_stored_nonzero Env.up "7"
    ⟨[⟨3, "a", "", "c", false⟩, ⟨7, "x", "y", "z", true⟩], 7, 0, []⟩ ⟨7, "x", "y", "z", true⟩
    (by decide) (by decide) rfl (by decide) rfl rfl

/-- C3 fails for a stored row whose id is 0: with the database up, both
lookups of "0" report the row as missing. -/
theorem lookup_stored_zero_not_found :
    PrimaryKey [(⟨0, "zero", "", "2025-01-01", false⟩ : Task)] ∧
    (⟨0, "zero", "", "2025-01-01", false⟩ : Task) ∈
      [(⟨0, "zero", "", "2025-01-01", false⟩ : Task)] ∧
    Atoi "0" = some 0 ∧
    (getTaskByID Env.up "0" ⟨[⟨0, "zero", "", "2025-01-01", false⟩], 0, 0, []⟩).out =
      .response (.json 200 (.obj "message" "Task Not Found")) ∧
    (getTaskByID Env.up "0" ⟨[⟨0, "zero", "", "2025-01-01", false⟩], 0, 0, []⟩).out ≠
      .response (.json 200 (.task ⟨0, "zero", "", "2025-01-01", false⟩)) ∧
    (searchTask Env.up "0" ⟨[⟨0, "zero", "", "2025-01-01", false⟩], 0, 0, []⟩).out =
      .response (.html 200 "index.html" (some "Task not found") []) ∧
    (searchTask Env.up "0" ⟨[⟨0, "zero", "", "2025-01-01", false⟩], 0, 0, []⟩).out ≠
      .response (.html 200 "index.html" none [⟨0, "zero", "", "2025-01-01", false⟩]) := by
  refine ⟨by decide, by decide, rfl, rfl, by decide, rfl, by decide⟩

/-- C4: for an id that is the key of no row, `GET /tasks/:id` with the
database reachable answers 200 with the object `{"message": "Task Not Found"}`
and leaves the table as it was. -/
theorem getTaskByID_absent (e : Env) (param : String) (w : World) (id : Int)
    (hparam : Atoi param = some id) (habs : ∀ t ∈ w.rows, t.ID ≠ id)
    (hc : e.connect = true) :
    (getTaskByID e param w).out = .response (.json 200 (.obj "message" "Task Not Found")) ∧
    (getTaskByID e param w).world.rows = w.rows := by
  rw [getTaskByID_connected hparam hc]
  refine ⟨?_, rfl⟩
  have hsel := selectByID_absent habs
  cases hs : e.stmt <;> simp [queryByID, hs, hsel, parseJSON, Task.zero]

theorem getTaskByID_absent_witness :
    (getTaskByID Env.up "999999" ⟨[⟨3, "a", "", "c", false⟩], 3, 0, []⟩).out =
      .response (.json 200 (.obj "message" "Task Not Found")) ∧
    (getTaskByID Env.up "999999" ⟨[⟨3, "a", "", "c", false⟩], 3, 0, []⟩).world.rows =
      [⟨3, "a", "", "c", false⟩] :=
  getTaskByID_absent Env.up "999999" ⟨[⟨3, "a", "", "c", false⟩], 3, 0, []⟩ 999999
    rfl (by decide) rfl

/-! ## Non-numeric route parameter -/

/-- C8: when `strconv.Atoi` rejects the `id` path parameter, `getTaskByID`,
`deleteTaskByID` and `completeTaskByID` end the process without a response
and with the state untouched: no connection was opened, no statement sent. -/
theorem nonnumeric_param_fatal (e : Env) (param : String) (w : World)
    (hparam : Atoi param = none) :
    getTaskByID e param w = ⟨w, .fatal⟩ ∧
    deleteTaskByID e param w = ⟨w, .fatal⟩ ∧
    completeTaskByID e param w = ⟨w, .fatal⟩ := by
  unfold getTaskByID deleteTaskByID completeTaskByID
  simp [hparam]

theorem nonnumeric_param_fatal_witness :
    getTaskByID Env.up "abc" ⟨[⟨3, "a", "", "c", false⟩], 3, 0, []⟩ =
      ⟨⟨[⟨3, "a", "", "c", false⟩], 3, 0, []⟩, .fatal⟩ ∧
    deleteTaskByID Env.up "abc" ⟨[⟨3, "a", "", "c", false⟩], 3, 0, []⟩ =
      ⟨⟨[⟨3, "a", "", "c", false⟩], 3, 0, []⟩, .fatal⟩ ∧
    completeTaskByID Env.up "abc" ⟨[⟨3, "a", "", "c", false⟩], 3, 0, []⟩ =
      ⟨⟨[⟨3, "a", "", "c", false⟩], 3, 0, []⟩, .fatal⟩ :=
  nonnumeric_param_fatal Env.up "abc" ⟨[⟨3, "a", "", "c", false⟩], 3, 0, []⟩ rfl

/-! ## Complete and delete -/

/-- The step `completeTaskByID` takes on a numeric parameter while the
database is reachable. -/
theorem completeTaskByID_connected {e : Env} {param : String} {w : World} {id : Int}
    (hparam : Atoi param = some id) (hc : e.connect = true) :
    completeTaskByID e param w =
      ⟨{ w with rows := if e.stmt = true then completeByID w.rows id else w.rows },
        .response (.redirect 302 "/")⟩ := by
  unfold completeTaskByID initDatabaseConnection connClose
  cases hs : e.stmt <;> simp [hparam, hc, StatusFound]

/-- The step `deleteTaskByID` takes on a numeric parameter while the
database is reachable. -/
theorem deleteTaskByID_connected {e : Env} {param : String} {w : World} {id : Int}
    (hparam : Atoi param = some id) (hc : e.connect = true) :
    deleteTaskByID e param w =
      ⟨{ w with rows := if e.stmt = true then deleteByID w.rows id else w.rows },
        .response (.redirect 302 "/")⟩ := by
  unfold deleteTaskByID initDatabaseConnection connClose
  cases hs : e.stmt <;> simp [hparam, hc, StatusFound]

/-- C5, as amended: for every id of a stored task, `GET /tasks/:id/complete`
answers with a 302 redirect to "/"; when that id is not 0 the next
`GET /tasks/:id` shows the task with `completed = true`; and a second
complete request for the same id leaves the table as the first one left it
and is answered with the same redirect. -/
theorem complete_then_get (e e2 g : Env) (param : String) (w : World) (t : Task)
    (hpk : PrimaryKey w.rows) (ht : t ∈ w.rows) (hparam : Atoi param = some t.ID)
    (hc : e.connect = true) (hs : e.stmt = true) (hc2 : e2.connect = true)
    (gc : g.connect = true) (gq : g.stmt = true) :
    (completeTaskByID e param w).out = .response (.redirect 302 "/") ∧
    (t.ID ≠ 0 →
      (getTaskByID g param (completeTaskByID e param w).world).out =
        .response (.json 200 (.task { t with Completed := true }))) ∧
    (completeTaskByID e2 param (completeTaskByID e param w).world).world.rows =
      (completeTaskByID e param w).world.rows ∧
    (completeTaskByID e2 param (completeTaskByID e param w).world).out =
      .response (.redirect 302 "/") := by
  rw [completeTaskByID_connected hparam hc, completeTaskByID_connected hparam hc2]
  simp only [hs, if_true]
  refine ⟨trivial, ?_, ?_, trivial⟩
  · intro hz
    rw [getTaskByID_connected hparam gc]
    have hmem : ({ t with Completed := true } : Task) ∈ completeByID w.rows t.ID := by
      have := mem_completeByID t.ID ht
      simpa using this
    have hsel := selectByID_of_mem (completeByID_pk t.ID hpk) hmem
    simp only [] at hsel
    simp [queryByID, gq, hsel, parseJSON, hz]
  · cases e2.stmt <;> simp [completeByID_idem]

theorem complete_then_get_witness :
    (completeTaskByID Env.up "3" ⟨[⟨3, "a", "", "c", false⟩], 3, 0, []⟩).out =
      .response (.redirect 302 "/") ∧
    (getTaskByID Env.up "3"
        (completeTaskByID Env.up "3" ⟨[⟨3, "a", "", "c", false⟩], 3, 0, []⟩).world).out =
      .response (.json 200 (.task ⟨3, "a", "", "c", true⟩)) ∧
    (completeTaskByID Env.up "3"
        (completeTaskByID Env.up "3" ⟨[⟨3, "a", "", "c", false⟩], 3, 0, []⟩).world).world.rows =
      (completeTaskByID Env.up "3" ⟨[⟨3, "a", "", "c", false⟩], 3, 0, []⟩).world.rows ∧
    (completeTaskByID Env.up "3"
        (completeTaskByID Env.up "3" ⟨[⟨3, "a", "", "c", false⟩], 3, 0, []⟩).world).out =
      .response (.redirect 302 "/") :=
  ⟨(complete_then_get Env.up Env.up Env.up "3" ⟨[⟨3, "a", "", "c", false⟩], 3, 0, []⟩
      ⟨3, "a", "", "c", false⟩ (by decide) (by decide) rfl rfl rfl rfl rfl rfl).1,
   (complete_then_get Env.up Env.up Env.up "3" ⟨[⟨3, "a", "", "c", false⟩], 3, 0, []⟩
      ⟨3, "a", "", "c", false⟩ (by decide) (by decide) rfl rfl rfl rfl rfl rfl).2.1 (by decide),
   (complete_then_get Env.up Env.up Env.up "3" ⟨[⟨3, "a", "", "c", false⟩], 3, 0, []⟩
      ⟨3, "a", "", "c", false⟩ (by decide) (by decide) rfl rfl rfl rfl rfl rfl).2.2⟩

/-- C5 fails for a stored task whose id is 0: the complete request
redirects and sets the flag in the table, yet the next `GET /tasks/0`
answers "Task Not Found" instead of the completed task. -/
theorem complete_then_get_zero_not_found :
    PrimaryKey
      [(⟨0, "zero", "", "2025-01-01", false⟩ : Task), ⟨1, "one", "", "2025-01-02", false⟩] ∧
    (⟨0, "zero", "", "2025-01-01", false⟩ : Task) ∈
      [(⟨0, "zero", "", "2025-01-01", false⟩ : Task), ⟨1, "one", "", "2025-01-02", false⟩] ∧
    Atoi "0" = some 0 ∧
    (completeTaskByID Env.up "0"
        ⟨[⟨0, "zero", "", "2025-01-01", false⟩, ⟨1, "one", "", "2025-01-02", false⟩],
          1, 0, []⟩).world.rows =
      [⟨0, "zero", "", "2025-01-01", true⟩, ⟨1, "one", "", "2025-01-02", false⟩] ∧
    (getTaskByID Env.up "0"
        (completeTaskByID Env.up "0"
          ⟨[⟨0, "zero", "", "2025-01-01", false⟩, ⟨1, "one", "", "2025-01-02", false⟩],
            1, 0, []⟩).world).out =
      .response (.json 200 (.obj "message" "Task Not Found")) ∧
    (getTaskByID Env.up "0"
        (completeTaskByID Env.up "0"
          ⟨[⟨0, "zero", "", "2025-01-01", false⟩, ⟨1, "one", "", "2025-01-02", false⟩],
            1, 0, []⟩).world).out ≠
      .response (.json 200 (.task ⟨0, "zero", "", "2025-01-01", true⟩)) := by
  refine ⟨by decide, by decide, rfl, rfl, rfl, by decide⟩

/-- C6: for every numeric id, `GET /tasks/:id/delete` with the database
reachable answers with a 302 redirect to "/"; once the statement has run,
the next `GET /tasks/:id` for that id answers "Task Not Found"; and when the
id is the key of no row the table after the request is the table before. -/
theorem delete_then_get (e g : Env) (param : String) (w : World) (id : Int)
    (hparam : Atoi param = some id) (hc : e.connect = true) (gc : g.connect = true) :
    (deleteTaskByID e param w).out = .response (.redirect 302 "/") ∧
    (e.stmt = true →
      (getTaskByID g param (deleteTaskByID e param w).world).out =
        .response (.json 200 (.obj "message" "Task Not Found"))) ∧
    ((∀ t ∈ w.rows, t.ID ≠ id) → (deleteTaskByID e param w).world.rows = w.rows) := by
  rw [deleteTaskByID_connected hparam hc]
  refine ⟨rfl, ?_, ?_⟩
  · intro hs
    rw [getTaskByID_connected hparam gc]
    cases hq : g.stmt <;>
      simp [queryByID, hs, hq, selectByID_deleteByID, parseJSON, Task.zero]
  · intro habs
    cases e.stmt <;> simp [deleteByID_absent habs]

theorem delete_then_get_witness :
    (deleteTaskByID Env.up "3" ⟨[⟨3, "a", "", "c", false⟩], 3, 0, []⟩).out =
      .response (.redirect 302 "/") ∧
    (getTaskByID Env.up "3"
        (deleteTaskByID Env.up "3" ⟨[⟨3, "a", "", "c", false⟩], 3, 0, []⟩).world).out =
      .response (.json 200 (.obj "message" "Task Not Found")) ∧
    (deleteTaskByID Env.up "4" ⟨[⟨3, "a", "", "c", false⟩], 3, 0, []⟩).world.rows =
      [⟨3, "a", "", "c", false⟩] :=
  ⟨(delete_then_get Env.up Env.up "3" ⟨[⟨3, "a", "", "c", false⟩], 3, 0, []⟩ 3 rfl rfl rfl).1,
   (delete_then_get Env.up Env.up "3" ⟨[⟨3, "a", "", "c", false⟩], 3, 0, []⟩ 3 rfl rfl rfl).2.1 rfl,
   (delete_then_get Env.up Env.up "4" ⟨[⟨3, "a", "", "c", false⟩], 3, 0, []⟩ 4 rfl rfl rfl).2.2
     (by decide)⟩

/-! ## Search -/

/-- The handler `searchTask` never changes the table. -/
theorem searchTask_rows (e : Env) (searchID : String) (w : World) :
    (searchTask e searchID w).world.rows = w.rows := by
  unfold searchTask queryAllTasks initDatabaseConnection connClose
  by_cases h0 : searchID = ""
  · simp [h0]
  · simp only [h0, if_false]
    cases Atoi searchID <;> cases e.connect <;> cases e.stmt <;> cases e.listConnect <;>
      cases e.listQuery <;> cases e.listIter <;> simp <;> split <;> rfl

/-- C7, as amended: `GET /search` with an `id` that names no stored task.
The empty string is answered with a 302 redirect to "/" and nothing else
happens; the table is never changed; and while the database answers, a
non-empty string that `strconv.Atoi` rejects renders `index.html` with the
error "Invalid ID format", an integer that is the key of no row renders it
with the error "Task not found".  Both pages carry exactly the stored rows
whose id is at least 1, in storage order, which is also what `GET /tasks`
answers in that state; when every stored id is at least 1 that is the whole
table. -/
theorem searchTask_unmatched (e : Env) (searchID : String) (w : World) :
    (searchID = "" → searchTask e searchID w = ⟨w, .response (.redirect 302 "/")⟩) ∧
    (searchTask e searchID w).world.rows = w.rows ∧
    (e.listConnect = true → e.listQuery = true → e.listIter = true →
      (getTasks e w).out =
        .response (.json 200 (.taskList (w.rows.filter (fun t => decide (1 ≤ t.ID))))) ∧
      (searchID ≠ "" → Atoi searchID = none →
        (searchTask e searchID w).out =
          .response (.html 200 "index.html" (some "Invalid ID format")
            (w.rows.filter (fun t => decide (1 ≤ t.ID)))) ∧
        ((∀ t ∈ w.rows, 1 ≤ t.ID) →
          (searchTask e searchID w).out =
            .response (.html 200 "index.html" (some "Invalid ID format") w.rows))) ∧
      (∀ id : Int, Atoi searchID = some id → (∀ t ∈ w.rows, t.ID ≠ id) →
        e.connect = true → e.stmt = true →
        (searchTask e searchID w).out =
          .response (.html 200 "index.html" (some "Task not found")
            (w.rows.filter (fun t => decide (1 ≤ t.ID)))) ∧
        ((∀ t ∈ w.rows, 1 ≤ t.ID) →
          (searchTask e searchID w).out =
            .response (.html 200 "index.html" (some "Task not found") w.rows)))) := by
  have hfull : (∀ t ∈ w.rows, 1 ≤ t.ID) →
      w.rows.filter (fun t => decide (1 ≤ t.ID)) = w.rows := by
    intro hall
    rw [List.filter_eq_self]
    intro t ht
    simpa using hall t ht
  refine ⟨?_, searchTask_rows e searchID w, ?_⟩
  · intro h0
    unfold searchTask
    simp [h0, StatusFound]
  · intro hc hq hi
    refine ⟨?_, ?_, ?_⟩
    · unfold getTasks
      rw [queryAllTasks_up w hc hq hi]
      rfl
    · intro h0 hparam
      have hout : (searchTask e searchID w).out =
          .response (.html 200 "index.html" (some "Invalid ID format")
            (w.rows.filter (fun t => decide (1 ≤ t.ID)))) := by
        unfold searchTask
        simp only [h0, if_false, hparam]
        rw [queryAllTasks_up w hc hq hi]
        rfl
      refine ⟨hout, ?_⟩
      intro hall
      rw [hout, hfull hall]
    · intro id hparam habs hcon hs
      have hsel := selectByID_absent habs
      have hout : (searchTask e searchID w).out =
          .response (.html 200 "index.html" (some "Task not found")
            (w.rows.filter (fun t => decide (1 ≤ t.ID)))) := by
        unfold searchTask initDatabaseConnection
        simp only [Atoi_ne_empty hparam, if_false, hparam, hcon, hs, if_true, hsel, parseJSON,
          Task.zero]
        rw [queryAllTasks_up _ hc hq hi]
        rfl
      refine ⟨hout, ?_⟩
      intro hall
      rw [hout, hfull hall]

theorem searchTask_unmatched_witness :
    searchTask Env.up "" ⟨[⟨3, "a", "", "c", false⟩, ⟨5, "x", "y", "z", true⟩], 5, 0, []⟩ =
      ⟨⟨[⟨3, "a", "", "c", false⟩, ⟨5, "x", "y", "z", true⟩], 5, 0, []⟩,
        .response (.redirect 302 "/")⟩ ∧
    (searchTask Env.up "abc"
        ⟨[⟨3, "a", "", "c", false⟩, ⟨5, "x", "y", "z", true⟩], 5, 0, []⟩).out =
      .response (.html 200 "index.html" (some "Invalid ID format")
        [⟨3, "a", "", "c", false⟩, ⟨5, "x", "y", "z", true⟩]) ∧
    (searchTask Env.up "999999"
        ⟨[⟨3, "a", "", "c", false⟩, ⟨5, "x", "y", "z", true⟩], 5, 0, []⟩).out =
      .response (.html 200 "index.html" (some "Task not found")
        [⟨3, "a", "", "c", false⟩, ⟨5, "x", "y", "z", true⟩]) :=
  ⟨(searchTask_unmatched Env.up ""
      ⟨[⟨3, "a", "", "c", false⟩, ⟨5, "x", "y", "z", true⟩], 5, 0, []⟩).1 rfl,
   (((searchTask_unmatched Env.up "abc"
      ⟨[⟨3, "a", "", "c", false⟩, ⟨5, "x", "y", "z", true⟩], 5, 0, []⟩).2.2
      rfl rfl rfl).2.1 (by decide) rfl).2 (by decide),
   (((searchTask_unmatched Env.up "999999"
      ⟨[⟨3, "a", "", "c", false⟩, ⟨5, "x", "y", "z", true⟩], 5, 0, []⟩).2.2
      rfl rfl rfl).2.2 999999 rfl (by decide) rfl rfl).2 (by decide)⟩

/-- C7 fails on a table that holds a row with an id below 1: the two error
pages are rendered, but the list they carry leaves such rows out.  On a
table with the single row 0 the "Invalid ID format" page carries no task;
on a table with the rows 0, -2 and 3 the "Task not found" page carries only
the row 3. -/
theorem searchTask_page_omits_rows_below_one :
    ("abc" ≠ "" ∧ Atoi "abc" = none ∧
      (searchTask Env.up "abc" ⟨[⟨0, "zero", "", "2025-01-01", false⟩], 0, 0, []⟩).out =
        .response (.html 200 "index.html" (some "Invalid ID format") []) ∧
      (searchTask Env.up "abc" ⟨[⟨0, "zero", "", "2025-01-01", false⟩], 0, 0, []⟩).out ≠
        .response (.html 200 "index.html" (some "Invalid ID format")
          [⟨0, "zero", "", "2025-01-01", false⟩])) ∧
    (Atoi "999999" = some 999999 ∧
      (∀ t ∈ [(⟨0, "zero", "", "2025-01-01", false⟩ : Task),
          ⟨-2, "minus", "", "2025-01-02", false⟩, ⟨3, "three", "", "2025-01-03", true⟩],
        t.ID ≠ 999999) ∧
      (searchTask Env.up "999999"
          ⟨[⟨0, "zero", "", "2025-01-01", false⟩, ⟨-2, "minus", "", "2025-01-02", false⟩,
            ⟨3, "three", "", "2025-01-03", true⟩], 3, 0, []⟩).out =
        .response (.html 200 "index.html" (some "Task not found")
          [⟨3, "three", "", "2025-01-03", true⟩]) ∧
      (searchTask Env.up "999999"
          ⟨[⟨0, "zero", "", "2025-01-01", false⟩, ⟨-2, "minus", "", "2025-01-02", false⟩,
            ⟨3, "three", "", "2025-01-03", true⟩], 3, 0, []⟩).out ≠
        .response (.html 200 "index.html" (some "Task not found")
          [⟨0, "zero", "", "2025-01-01", false⟩, ⟨-2, "minus", "", "2025-01-02", false⟩,
            ⟨3, "three", "", "2025-01-03", true⟩])) := by
  refine ⟨⟨by decide, rfl, rfl, by decide⟩, ⟨rfl, by decide, rfl, by decide⟩⟩

/-! ## Connections -/

/-- C10 does not hold for the listing and for get-by-id: with the database
answering every call, `GET /tasks`, `GET /` and `GET /tasks/1` produce their
response and leave one more connection open than before, in every state. -/
theorem listing_and_get_leave_connection_open (w : World) :
    ((getTasks Env.up w).out = .response (.json 200 (.taskList (selectAll w.rows))) ∧
      (getTasks Env.up w).world.openConns = w.openConns + 1) ∧
    ((htmlTasks Env.up w).out = .response (.html 200 "index.html" none (selectAll w.rows)) ∧
      (htmlTasks Env.up w).world.openConns = w.openConns + 1) ∧
    ((getTaskByID Env.up "1" w).out ≠ .fatal ∧
      (getTaskByID Env.up "1" w).world.openConns = w.openConns + 1) := by
  refine ⟨⟨?_, ?_⟩, ⟨?_, ?_⟩, ⟨?_, ?_⟩⟩
  · unfold getTasks; rw [queryAllTasks_up w rfl rfl rfl]; rfl
  · unfold getTasks; rw [queryAllTasks_up w rfl rfl rfl]
  · unfold htmlTasks; rw [queryAllTasks_up w rfl rfl rfl]; rfl
  · unfold htmlTasks; rw [queryAllTasks_up w rfl rfl rfl]
  · have hparam : Atoi "1" = some 1 := rfl
    rw [getTaskByID_connected (e := Env.up) (w := w) hparam rfl]
    simp only []
    split_ifs <;> simp
  · have hparam : Atoi "1" = some 1 := rfl
    rw [getTaskByID_connected (e := Env.up) (w := w) hparam rfl]

/-- The handlers that defer `conn.Close` give back the connection they
opened: delete, complete and a create with valid input end with as many
open connections as they started with, whatever the statement does. -/
theorem closing_handlers_balanced (e : Env) (param title description dueDate : String)
    (w : World) (id : Int) (hparam : Atoi param = some id) (hc : e.connect = true)
    (ht : title ≠ "") (hd : dueDate ≠ "") :
    (deleteTaskByID e param w).world.openConns = w.openConns ∧
    (completeTaskByID e param w).world.openConns = w.openConns ∧
    (createTask e title description dueDate w).world.openConns = w.openConns := by
  refine ⟨?_, ?_, ?_⟩
  · rw [deleteTaskByID_connected hparam hc]
  · rw [completeTaskByID_connected hparam hc]
  · unfold createTask initDatabaseConnection insertReturningID connClose
    simp only [Task.zero, ht, hd, or_self, if_false, hc, if_true]
    cases e.stmt
    · simp
    · by_cases hex : ∃ x ∈ w.rows, x.ID = nextID w.seq <;> simp [hex]

/-! ## Invariants of the table -/

/-- The four things a request can do to the table: nothing, the delete
statement, the update statement, or the insert of a validated row under a
fresh key. -/
theorem handle_rows_cases (e : Env) (r : Request) (w : World) :
    (handle e r w).world.rows = w.rows ∨
    (∃ s id, r = .delete s ∧ Atoi s = some id ∧
      (handle e r w).world.rows = deleteByID w.rows id) ∨
    (∃ s id, r = .complete s ∧ Atoi s = some id ∧
      (handle e r w).world.rows = completeByID w.rows id) ∨
    (∃ title description dueDate, r = .create title description dueDate ∧
      title ≠ "" ∧ dueDate ≠ "" ∧ (∀ t ∈ w.rows, t.ID ≠ nextID w.seq) ∧
      (handle e r w).world.rows =
        w.rows ++ [{ ID := nextID w.seq, Title := title, Description := description,
                     DueDate := dueDate, Completed := false }]) := by
  cases r with
  | root =>
    left
    show (htmlTasks e w).world.rows = w.rows
    have h := queryAllTasks_rows e w
    unfold htmlTasks
    split <;> simp_all
  | list =>
    left
    show (getTasks e w).world.rows = w.rows
    have h := queryAllTasks_rows e w
    unfold getTasks
    split <;> simp_all
  | get s =>
    left
    show (getTaskByID e s w).world.rows = w.rows
    unfold getTaskByID initDatabaseConnection
    cases Atoi s <;> cases e.connect <;> simp
    split_ifs <;> rfl
  | delete s =>
    simp only [handle]
    cases hparam : Atoi s with
    | none => left; unfold deleteTaskByID; simp [hparam]
    | some id =>
      cases hc : e.connect with
      | false => left; unfold deleteTaskByID initDatabaseConnection; simp [hparam, hc]
      | true =>
        rw [deleteTaskByID_connected hparam hc]
        cases hs : e.stmt with
        | false => left; simp
        | true => right; left; exact ⟨s, id, rfl, hparam, by simp⟩
  | complete s =>
    simp only [handle]
    cases hparam : Atoi s with
    | none => left; unfold completeTaskByID; simp [hparam]
    | some id =>
      cases hc : e.connect with
      | false => left; unfold completeTaskByID initDatabaseConnection; simp [hparam, hc]
      | true =>
        rw [completeTaskByID_connected hparam hc]
        cases hs : e.stmt with
        | false => left; simp
        | true => right; right; left; exact ⟨s, id, rfl, hparam, by simp⟩
  | search s =>
    left
    exact searchTask_rows e s w
  | create title description dueDate =>
    simp only [handle]
    by_cases hempty : title = "" ∨ dueDate = ""
    · left
      exact createTask_empty_rows e title description dueDate w hempty
    · have ht : title ≠ "" := fun h => hempty (Or.inl h)
      have hd : dueDate ≠ "" := fun h => hempty (Or.inr h)
      cases hc : e.connect with
      | false =>
        left
        unfold createTask initDatabaseConnection
        simp [Task.zero, ht, hd, hc]
      | true =>
        cases hs : e.stmt with
        | false =>
          left
          unfold createTask initDatabaseConnection insertReturningID connClose
          simp [Task.zero, ht, hd, hc, hs]
        | true =>
          by_cases hex : ∃ x ∈ w.rows, x.ID = nextID w.seq
          · left
            unfold createTask initDatabaseConnection insertReturningID connClose
            simp [Task.zero, ht, hd, hc, hs, hex]
          · right; right; right
            have hfresh : ∀ t ∈ w.rows, t.ID ≠ nextID w.seq :=
              fun t htm heq => hex ⟨t, htm, heq⟩
            refine ⟨title, description, dueDate, rfl, ht, hd, hfresh, ?_⟩
            rw [createTask_inserted ht hd hc hs hfresh]

theorem deleteByID_sublist (rows : List Task) (id : Int) :
    (deleteByID rows id).Sublist rows := by
  unfold deleteByID
  exact List.filter_sublist rows

theorem mem_completeByID_iff {rows : List Task} {id : Int} {u : Task} :
    u ∈ completeByID rows id ↔
      ∃ t ∈ rows, (if t.ID = id then { t with Completed := true } else t) = u := by
  unfold completeByID
  exact List.mem_map

/-- One request keeps the primary key and the validated fields. -/
theorem handle_keeps (e : Env) (r : Request) (w : World)
    (hpk : PrimaryKey w.rows) (hv : Validated w.rows) :
    PrimaryKey (handle e r w).world.rows ∧ Validated (handle e r w).world.rows := by
  rcases handle_rows_cases e r w with h | ⟨s, id, _, _, h⟩ | ⟨s, id, _, _, h⟩ |
    ⟨title, description, dueDate, _, ht, hd, hfresh, h⟩
  · rw [h]; exact ⟨hpk, hv⟩
  · rw [h]
    constructor
    · exact List.Nodup.sublist ((deleteByID_sublist w.rows id).map _) hpk
    · intro t htm
      exact hv t ((deleteByID_sublist w.rows id).subset htm)
  · rw [h]
    constructor
    · exact completeByID_pk id hpk
    · intro u hu
      obtain ⟨t, htm, rfl⟩ := mem_completeByID_iff.mp hu
      have := hv t htm
      by_cases hid : t.ID = id <;> simpa [hid] using this
  · rw [h]
    constructor
    · unfold PrimaryKey at hpk ⊢
      rw [List.map_append, List.nodup_append]
      refine ⟨hpk, by simp, ?_⟩
      intro a ha hb
      simp only [List.map_cons, List.map_nil, List.mem_singleton] at hb
      obtain ⟨t, htm, rfl⟩ := List.mem_map.mp ha
      exact hfresh t htm hb
    · intro t htm
      rcases List.mem_append.mp htm with hold | hnew
      · exact hv t hold
      · rw [List.mem_singleton] at hnew
        subst hnew
        exact ⟨ht, hd⟩

/-- Any run that starts in a state with the two invariants ends in one. -/
theorem run_keeps (reqs : List (Env × Request)) (w : World)
    (hpk : PrimaryKey w.rows) (hv : Validated w.rows) :
    PrimaryKey (run w reqs).rows ∧ Validated (run w reqs).rows := by
  induction reqs generalizing w with
  | nil => exact ⟨hpk, hv⟩
  | cons head rest ih =>
    obtain ⟨e, r⟩ := head
    have hstep := handle_keeps e r w hpk hv
    unfold run
    split
    · exact hstep
    · exact ih _ hstep.1 hstep.2

/-- Under the primary key, a row found before and after one request under
the same id is unchanged, or was completed by that very request. -/
theorem handle_row_change (e : Env) (r : Request) (w : World) (hpk : PrimaryKey w.rows)
    (t u : Task) (ht : t ∈ w.rows) (hu : u ∈ (handle e r w).world.rows) (hid : u.ID = t.ID) :
    u = t ∨ (∃ s, r = .complete s ∧ Atoi s = some t.ID ∧ u = { t with Completed := true }) := by
  have huniq : ∀ a ∈ w.rows, a.ID = t.ID → a = t := by
    intro a ha haid
    have h1 := selectByID_of_mem hpk ha
    have h2 := selectByID_of_mem hpk ht
    rw [haid, h2] at h1
    simpa using h1.symm
  rcases handle_rows_cases e r w with h | ⟨s, id, _, _, h⟩ | ⟨s, id, hr, hparam, h⟩ |
    ⟨title, description, dueDate, _, _, _, hfresh, h⟩
  · rw [h] at hu
    exact Or.inl (huniq u hu hid)
  · rw [h] at hu
    exact Or.inl (huniq u ((deleteByID_sublist w.rows id).subset hu) hid)
  · rw [h] at hu
    obtain ⟨a, ha, hau⟩ := mem_completeByID_iff.mp hu
    by_cases hcase : a.ID = id
    · rw [if_pos hcase] at hau
      subst hau
      have hat : a = t := huniq a ha hid
      subst hat
      right
      exact ⟨s, hr, by rw [hparam, hcase], rfl⟩
    · rw [if_neg hcase] at hau
      subst hau
      exact Or.inl (huniq a ha hid)
  · rw [h] at hu
    rcases List.mem_append.mp hu with hold | hnew
    · exact Or.inl (huniq u hold hid)
    · rw [List.mem_singleton] at hnew
      subst hnew
      exact absurd hid.symm (hfresh t ht)

/-- C9: over every sequence of requests served from the empty table, every
stored task has a non-empty title and a non-empty due date; and for every
further request and every id stored both before and after it, the title,
description and due date of that task are the same, `completed` does not go
from true to false, and the row is either untouched or the one whose id a
complete request named, now with `completed = true`. -/
theorem task_invariants (seq conns : Nat) (cache : List Task) (reqs : List (Env × Request)) :
    (∀ t ∈ (run ⟨[], seq, conns, cache⟩ reqs).rows, t.Title ≠ "" ∧ t.DueDate ≠ "") ∧
    (∀ (e : Env) (r : Request) (t u : Task),
      t ∈ (run ⟨[], seq, conns, cache⟩ reqs).rows →
      u ∈ (handle e r (run ⟨[], seq, conns, cache⟩ reqs)).world.rows →
      u.ID = t.ID →
      (u.Title = t.Title ∧ u.Description = t.Description ∧ u.DueDate = t.DueDate ∧
        (t.Completed = true → u.Completed = true)) ∧
      (u = t ∨
        (∃ s, r = .complete s ∧ Atoi s = some t.ID ∧ u = { t with Completed := true }))) := by
  have hinit : PrimaryKey (⟨[], seq, conns, cache⟩ : World).rows ∧
      Validated (⟨[], seq, conns, cache⟩ : World).rows :=
    ⟨List.nodup_nil, fun _ h => absurd h (List.not_mem_nil _)⟩
  obtain ⟨hpk, hv⟩ := run_keeps reqs ⟨[], seq, conns, cache⟩ hinit.1 hinit.2
  refine ⟨hv, ?_⟩
  intro e r t u ht hu hid
  have hchange := handle_row_change e r _ hpk t u ht hu hid
  refine ⟨?_, hchange⟩
  rcases hchange with rfl | ⟨_, _, _, rfl⟩
  · exact ⟨rfl, rfl, rfl, id⟩
  · exact ⟨rfl, rfl, rfl, fun _ => rfl⟩

theorem task_invariants_witness :
    (∀ t ∈ (run ⟨[], 0, 0, []⟩
        [(Env.up, .create "Buy milk" "" "2025-01-01"), (Env.up, .complete "1")]).rows,
      t.Title ≠ "" ∧ t.DueDate ≠ "") ∧
    ((⟨1, "Buy milk", "", "2025-01-01", false⟩ : Task).Completed = true →
      (⟨1, "Buy milk", "", "2025-01-01", true⟩ : Task).Completed = true) ∧
    ((⟨1, "Buy milk", "", "2025-01-01", true⟩ : Task) = ⟨1, "Buy milk", "", "2025-01-01", false⟩ ∨
      (∃ s, Request.complete "1" = .complete s ∧ Atoi s = some 1 ∧
        (⟨1, "Buy milk", "", "2025-01-01", true⟩ : Task) =
          { (⟨1, "Buy milk", "", "2025-01-01", false⟩ : Task) with Completed := true })) :=
  ⟨(task_invariants 0 0 []
      [(Env.up, .create "Buy milk" "" "2025-01-01"), (Env.up, .complete "1")]).1,
   ((task_invariants 0 0 [] [(Env.up, .create "Buy milk" "" "2025-01-01")]).2
      Env.up (.complete "1") ⟨1, "Buy milk", "", "2025-01-01", false⟩
      ⟨1, "Buy milk", "", "2025-01-01", true⟩ (by decide) (by decide) rfl).1.2.2.2,
   ((task_invariants 0 0 [] [(Env.up, .create "Buy milk" "" "2025-01-01")]).2
      Env.up (.complete "1") ⟨1, "Buy milk", "", "2025-01-01", false⟩
      ⟨1, "Buy milk", "", "2025-01-01", true⟩ (by decide) (by decide) rfl).2⟩

end TaskApp
